import Mathlib

/-!
Verification development for the scalar-surreal crate
(src/scalar-surreal/src/lib.rs): a SurrealDB-backed content-item store with a
draft / published / meta three-record model, plus its authentication adapter
and connection factory.

The store state is embedded as three typed association maps (one per table
kind), rows typed per the SCHEMAFULL table definitions that init_doc issues.
Each engine operation is embedded through the list of SurrealQL statements it
actually submits, run by a small interpreter; one awaited chain of
.query(...) calls is one atomic submission (the transactional multi-statement
Session contract that the spec, section 2, assigns to the backing store).
Rust panics (expect / todo!) are embedded as Except.error values.
-/

namespace ScalarSurreal

/-- Model of serde_json::Value, the payload type carried by draft rows and
published rows.  The engine binds payloads as parameters and stores or
returns them without inspecting their structure; a missing field read
(for example published.inner with no published record) deserializes to null. -/
inductive Value where
  | null
  | bool (b : Bool)
  | num (n : Int)
  | str (s : String)
  deriving DecidableEq, Repr

/-- Timestamps (chrono DateTime<Utc>) modelled as naturals. -/
abbrev Timestamp := Nat

/-- A SurrealDB record id (surrealdb::sql::Thing): table name plus the bare
record-id suffix. -/
structure Thing where
  tb : String
  id : String
  deriving DecidableEq, Repr

/-- Embeds thing_to_string (lib.rs:18-24): deserialize a Thing and keep only
the raw id, stripping the table-name part. -/
def thing_to_string (t : Thing) : String := t.id

/-- The caller-facing merged item view.  scalar::Item and SurrealItem
(lib.rs:41-73) convert into each other field for field, so one structure
models both; the id field is produced through thing_to_string. -/
structure Item where
  id : String
  created_at : Timestamp
  modified_at : Timestamp
  published_at : Option Timestamp
  inner : Value
  deriving DecidableEq, Repr

/-- A row of a draft table `<doc>_draft`: just the payload (schema per
init_doc, lib.rs:341-342). -/
structure DraftRow where
  inner : Value
  deriving DecidableEq, Repr

/-- A row of a published table `<doc>`: optional published_at plus the
payload (schema per init_doc, lib.rs:337-339). -/
structure PubRow where
  published_at : Option Timestamp
  inner : Value
  deriving DecidableEq, Repr

/-- A row of a meta table `<doc>_meta` (schema per init_doc, lib.rs:344-348):
created_at and modified_at are required datetimes (created_at has DEFAULT
time::now()), draft and published are optional record links. -/
structure MetaRow where
  created_at : Timestamp
  modified_at : Timestamp
  draft : Option Thing
  published : Option Thing
  deriving DecidableEq, Repr

/-- First-match lookup in an association list. -/
def lookupA {α β : Type} [DecidableEq α] : List (α × β) → α → Option β
  | [], _ => none
  | (k, v) :: rest, k' => if k' = k then some v else lookupA rest k'

/-- Remove every binding of a key. -/
def removeA {α β : Type} [DecidableEq α] : List (α × β) → α → List (α × β)
  | [], _ => []
  | (k, v) :: rest, k' => if k = k' then removeA rest k' else (k, v) :: removeA rest k'

/-- UPSERT semantics on an association list: replace the binding of the key,
creating it if absent. -/
def upsertA {α β : Type} [DecidableEq α] (l : List (α × β)) (k : α) (v : β) :
    List (α × β) :=
  (k, v) :: removeA l k

/-- The database state visible to one document family: the three physical
tables, keyed by full table name plus record id. -/
structure DB where
  draftTab : List (Thing × DraftRow)
  metaTab : List (Thing × MetaRow)
  pubTab : List (Thing × PubRow)
  deriving DecidableEq, Repr

/-- FETCH draft; then draft.inner: resolve an optional record link into the
draft table.  A NONE link or a dangling link reads as null. -/
def draftInner (st : DB) : Option Thing → Value
  | none => .null
  | some r =>
    match lookupA st.draftTab r with
    | none => .null
    | some row => row.inner

/-- FETCH published; then published.inner. -/
def pubInner (st : DB) : Option Thing → Value
  | none => .null
  | some r =>
    match lookupA st.pubTab r with
    | none => .null
    | some row => row.inner

/-- FETCH published; then published.published_at. -/
def pubPublishedAt (st : DB) : Option Thing → Option Timestamp
  | none => none
  | some r =>
    match lookupA st.pubTab r with
    | none => none
    | some row => row.published_at

/-- The SELECT projection shared verbatim by draft, get_all and get_by_id
(lib.rs:180-187, 250-257, 279-286):

  SELECT id, created_at, modified_at,
    IF draft IS NOT NONE THEN draft.inner ELSE published.inner END AS inner,
    published.published_at AS published_at
  FROM ... FETCH draft, published -/
def mergedOf (st : DB) (metaId : Thing) (row : MetaRow) : Item where
  id := thing_to_string metaId
  created_at := row.created_at
  modified_at := row.modified_at
  published_at := pubPublishedAt st row.published
  inner := if row.draft.isSome then draftInner st row.draft else pubInner st row.published

/-- The meta-row value written by the meta UPSERT of draft (lib.rs:178),
combined with the meta table schema: on update, draft and modified_at are
set; on create, created_at is additionally filled by the schema DEFAULT
time::now() and published starts absent. -/
def bumpMeta (now : Timestamp) (old : Option MetaRow) (dref : Option Thing) : MetaRow :=
  match old with
  | some r => { r with draft := dref, modified_at := now }
  | none => { created_at := now, modified_at := now, draft := dref, published := none }

/-- The statement forms the engine submits (draft, delete_draft, get_by_id,
get_all; lib.rs:174-187, 215-218, 250-257, 277-286).  Record links computed by
LET statements are referenced through variables, exactly as in the source. -/
inductive SqlStmt where
  | letThing (var tb id : String)
  | upsertDraft (var : String) (inner : Value)
  | upsertMeta (tb id : String) (draftVar : String)
  | selectMerged (var : String)
  | selectMergedTable (tb : String)
  | deleteRec (var : String)
  | deleteMetaIfUnpublished (var : String)
  deriving DecidableEq, Repr

/-- Per-statement result, as the driver's Response exposes it: LET / UPSERT /
DELETE results are never taken by the engine, SELECT yields rows. -/
inductive StmtRes where
  | unit
  | rows (items : List Item)
  deriving DecidableEq, Repr

/-- One statement of the interpreter.  now is the value of time::now() for
the submission. -/
def step (now : Timestamp) (st : DB) (env : List (String × Thing)) :
    SqlStmt → DB × List (String × Thing) × StmtRes
  | .letThing v tb i => (st, (v, ⟨tb, i⟩) :: env, .unit)
  | .upsertDraft v inner =>
    match lookupA env v with
    | some rid => ({ st with draftTab := upsertA st.draftTab rid ⟨inner⟩ }, env, .unit)
    | none => (st, env, .unit)
  | .upsertMeta tb i dv =>
    let rid : Thing := ⟨tb, i⟩
    ({ st with metaTab := upsertA st.metaTab rid (bumpMeta now (lookupA st.metaTab rid) (lookupA env dv)) },
      env, .unit)
  | .selectMerged v =>
    match lookupA env v with
    | some rid =>
      match lookupA st.metaTab rid with
      | some row => (st, env, .rows [mergedOf st rid row])
      | none => (st, env, .rows [])
    | none => (st, env, .rows [])
  | .selectMergedTable tb =>
    (st, env, .rows ((st.metaTab.filter (fun p => p.1.tb == tb)).map (fun p => mergedOf st p.1 p.2)))
  | .deleteRec v =>
    match lookupA env v with
    | some rid => ({ st with draftTab := removeA st.draftTab rid }, env, .unit)
    | none => (st, env, .unit)
  | .deleteMetaIfUnpublished v =>
    match lookupA env v with
    | some rid =>
      match lookupA st.metaTab rid with
      | some row =>
        if row.published = none then ({ st with metaTab := removeA st.metaTab rid }, env, .unit)
        else (st, env, .unit)
      | none => (st, env, .unit)
    | none => (st, env, .unit)

/-- Run the statements of one submission in order, threading state and the
LET environment and collecting the per-statement results. -/
def runStmts (now : Timestamp) : DB → List (String × Thing) → List SqlStmt → DB × List StmtRes
  | st, _, [] => (st, [])
  | st, env, s :: rest =>
    let r := step now st env s
    let rest' := runStmts now r.1 r.2.1 rest
    (rest'.1, r.2.2 :: rest'.2)

/-- One atomic submission: one awaited chain of .query(...) calls, starting
with an empty LET environment. -/
def runQuery (now : Timestamp) (st : DB) (q : List SqlStmt) : DB × List StmtRes :=
  runStmts now st [] q

/-- Response::take::<Option<T>>(n): the rows of the n-th statement, which
must be a record result of at most one row. -/
def takeOpt (rs : List StmtRes) (n : Nat) : Except String (Option Item) :=
  match rs[n]? with
  | some (.rows []) => .ok none
  | some (.rows [it]) => .ok (some it)
  | some (.rows _) => .error "expected at most one result"
  | some .unit => .error "statement has no record result"
  | none => .error "index out of bounds"

/-- Response::take::<Vec<T>>(n). -/
def takeVec (rs : List StmtRes) (n : Nat) : Except String (List Item) :=
  match rs[n]? with
  | some (.rows l) => .ok l
  | some .unit => .error "statement has no record result"
  | none => .error "index out of bounds"

/-- The five statements draft submits in one awaited call (lib.rs:174-194). -/
def draftQuery (doc id : String) (data : Value) : List SqlStmt :=
  [ .letThing "draft_id" (doc ++ "_draft") id
  , .letThing "meta_id" (doc ++ "_meta") id
  , .upsertDraft "draft_id" data
  , .upsertMeta (doc ++ "_meta") id "draft_id"
  , .selectMerged "meta_id" ]

/-- draft (lib.rs:162-202): submit draftQuery once, take(4), then two
expects; an expect firing is a panic, embedded as Except.error. -/
def draft (now : Timestamp) (st : DB) (doc id : String) (data : Value) :
    Except String (Item × DB) :=
  let r := runQuery now st (draftQuery doc id data)
  match takeOpt r.2 4 with
  | .error e => .error e
  | .ok none => .error "panic: this option should always return something"
  | .ok (some it) => .ok (it, r.1)

/-- The statements delete_draft builds (lib.rs:214-222). -/
def deleteDraftQuery (doc id : String) : List SqlStmt :=
  [ .letThing "draft_id" (doc ++ "_draft") id
  , .letThing "meta_id" (doc ++ "_meta") id
  , .deleteRec "draft_id"
  , .deleteMetaIfUnpublished "meta_id" ]

/-- delete_draft (lib.rs:204-225): the query builder is constructed but never
awaited, so nothing is submitted to the store, and the body ends in
Ok(todo!()), which panics before returning. -/
def delete_draft (_st : DB) (_doc _id : String) : Except String (Item × DB) :=
  .error "panic: not yet implemented"

/-- delete (lib.rs:241-243): the body is todo!(), an immediate panic. -/
def delete (_st : DB) (_doc _id : String) : Except String (Item × DB) :=
  .error "panic: not yet implemented"

/-- The atomic submissions draft actually sends: exactly one, holding all
five statements. -/
def draftSubmissions (doc id : String) (data : Value) : List (List SqlStmt) :=
  [draftQuery doc id data]

/-- The atomic submissions delete_draft actually sends: none (the built
query future is never awaited; lib.rs:214-224). -/
def deleteDraftSubmissions (_doc _id : String) : List (List SqlStmt) := []

/-- The atomic submissions delete actually sends: none (todo!()). -/
def deleteSubmissions (_doc _id : String) : List (List SqlStmt) := []

/-- The durably observable states while a sequence of atomic submissions
runs: the state before each submission and after the last.  States inside a
submission are not durable, by the Session's transactional contract. -/
def durableStates (now : Timestamp) (st : DB) (subs : List (List SqlStmt)) : List DB :=
  List.scanl (fun s q => (runQuery now s q).1) st subs

/-- The two statements get_by_id submits (lib.rs:277-287). -/
def getByIdQuery (doc id : String) : List SqlStmt :=
  [ .letThing "meta_id" (doc ++ "_meta") id
  , .selectMerged "meta_id" ]

/-- get_by_id (lib.rs:266-295): take::<Option<_>>(1); a take error is
propagated with ?, absence of the meta row is Ok(None).  The query contains
no time::now(), so the submission time is irrelevant and fixed to 0. -/
def get_by_id (st : DB) (doc id : String) : Except String (Option Item) :=
  takeOpt (runQuery 0 st (getByIdQuery doc id)).2 1

/-- The single statement get_all submits (lib.rs:248-260). -/
def getAllQuery (doc : String) : List SqlStmt :=
  [ .selectMergedTable (doc ++ "_meta") ]

/-- get_all (lib.rs:245-264): take::<Vec<_>>(0) over every meta row of the
document type. -/
def get_all (st : DB) (doc : String) : Except String (List Item) :=
  takeVec (runQuery 0 st (getAllQuery doc)).2 0

/-- The raw field set of a record as the driver hands it to serde for
deserialization: the record id plus whichever fields the stored row holds. -/
structure RawRow where
  id : Thing
  created_at : Option Timestamp
  modified_at : Option Timestamp
  published_at : Option Timestamp
  inner : Option Value
  deriving DecidableEq, Repr

/-- Serde deserialization of SurrealItem (lib.rs:41-49) from a raw record:
id through thing_to_string; created_at, modified_at and inner are required
fields (non-optional in the struct), published_at is optional; a required
field missing from the record is a deserialization error. -/
def deserializeSurrealItem (r : RawRow) : Except String Item :=
  match r.created_at with
  | none => .error "missing field created_at"
  | some c =>
    match r.modified_at with
    | none => .error "missing field modified_at"
    | some m =>
      match r.inner with
      | none => .error "missing field inner"
      | some iv =>
        .ok { id := thing_to_string r.id, created_at := c, modified_at := m,
              published_at := r.published_at, inner := iv }

/-- The raw record a published-table row echoes back to the driver: the
record id and the fields of init_doc's published schema, published_at and
inner; created_at and modified_at are not part of that schema, so the
SCHEMAFULL table holds no such fields. -/
def pubRowRaw (rid : Thing) (row : PubRow) : RawRow :=
  { id := rid, created_at := none, modified_at := none,
    published_at := row.published_at, inner := some row.inner }

/-- put (lib.rs:227-239): a single direct upsert of the published record
(table = the document identifier, record id = item.id) with the item's
content, of which the SCHEMAFULL published table persists its declared
fields published_at and inner.  The driver echoes the stored record and
deserializes it into SurrealItem behind the awaited ?: a missing record
would then panic through the expect ("surreal should return data
regardless"), a record that fails to deserialize surfaces the error.  The
first component is the call's result, the second the state after the
server-side write (which stands whether or not the client-side decode
succeeds). -/
def put (st : DB) (doc : String) (item : Item) : Except String Item × DB :=
  let rid : Thing := ⟨doc, item.id⟩
  let st1 : DB := { st with pubTab := upsertA st.pubTab rid ⟨item.published_at, item.inner⟩ }
  match (lookupA st1.pubTab rid).map (pubRowRaw rid) with
  | none => (.error "panic: surreal should return data regardless", st1)
  | some raw =>
    match deserializeSurrealItem raw with
    | .error e => (.error e, st1)
    | .ok it => (.ok it, st1)

/-- The document identifier of the example document type Hello
(src/scalar/examples/hello_world.rs:4). -/
def helloIdentifier : String := "mcdonalds sprite"

/-- The restricted charset the spec requires for identifiers embedded as
table names: ASCII alphanumerics and underscore. -/
def safeIdent (s : String) : Bool := s.data.all (fun c => c.isAlphanum || c = '_')

/-- init_doc (lib.rs:331-351): the DDL statements, with the document-type
identifier textually interpolated (format!) into each statement.  The source
performs no validation of the identifier: this function is total and embeds
the identifier verbatim for every input. -/
def initDocStatements (ident : String) : List String :=
  let published_table := ident
  let draft_table := ident ++ "_draft"
  let meta_table := ident ++ "_meta"
  [ "DEFINE TABLE OVERWRITE " ++ published_table ++ " SCHEMAFULL PERMISSIONS FOR select WHERE true FOR create, update, delete WHERE $auth.id IS NOT NONE"
  , "DEFINE FIELD IF NOT EXISTS published_at ON " ++ published_table ++ " TYPE option<datetime>"
  , "DEFINE FIELD IF NOT EXISTS inner ON " ++ published_table ++ " FLEXIBLE TYPE object"
  , "DEFINE TABLE OVERWRITE " ++ draft_table ++ " SCHEMAFULL PERMISSIONS FOR select, create, update, delete WHERE $auth.id IS NOT NONE"
  , "DEFINE FIELD IF NOT EXISTS inner ON " ++ draft_table ++ " FLEXIBLE TYPE object"
  , "DEFINE TABLE OVERWRITE " ++ meta_table ++ " SCHEMAFULL PERMISSIONS FOR select, create, update, delete WHERE $auth.id IS NOT NONE"
  , "DEFINE FIELD IF NOT EXISTS created_at ON " ++ meta_table ++ " TYPE datetime DEFAULT time::now()"
  , "DEFINE FIELD IF NOT EXISTS modified_at ON " ++ meta_table ++ " TYPE datetime"
  , "DEFINE FIELD IF NOT EXISTS draft ON " ++ meta_table ++ " TYPE option<record<" ++ draft_table ++ ">>"
  , "DEFINE FIELD IF NOT EXISTS published ON " ++ meta_table ++ " TYPE option<record<" ++ published_table ++ ">>" ]

/-- Modelled from the spec (section 6): scalar's Credentials type lives in
the scalar crate, which is not under src/; it is an opaque structured
payload forwarded to the backing authentication mechanism without
inspection by the engine. -/
structure Credentials where
  payload : String
  deriving DecidableEq, Repr

/-- The surrealdb driver error kinds the adapter distinguishes
(surrealdb::error::Api::Query and surrealdb::error::Db::InvalidAuth); every
other driver error is collapsed into one constructor, since the adapter
treats them uniformly. -/
inductive SurrealError where
  | apiQuery (msg : String)
  | dbInvalidAuth
  | otherErr (msg : String)
  deriving DecidableEq, Repr

/-- Modelled from the spec (section 6): scalar's AuthenticationError (in the
scalar crate, not under src/): BadToken, BadCredentials, or the underlying
store error passed through via From. -/
inductive AuthenticationError where
  | badToken
  | badCredentials
  | other (e : SurrealError)
  deriving DecidableEq, Repr

/-- SurrealStore configuration (lib.rs:75-107): endpoint plus the configured
namespace and database names. -/
structure SurrealStore where
  endpoint : String
  ns : String
  db : String
  deriving DecidableEq, Repr

/-- SurrealConnection (lib.rs:26-31): the namespace and db strings captured
alongside the driver handle (Lean field ns models the Rust field named
namespace). -/
structure SurrealConnection where
  ns : String
  db : String
  deriving DecidableEq, Repr

/-- init (lib.rs:119-130): opens an unauthenticated session with use_ns /
use_db, then constructs the connection value; the source fills the
connection's db field with self.namespace.clone(). -/
def init (s : SurrealStore) : SurrealConnection :=
  { ns := s.ns, db := s.ns }

/-- Root credentials (surrealdb::opt::auth::Root). -/
structure Root where
  username : String
  password : String
  deriving DecidableEq, Repr

/-- The Root credential init_system (lib.rs:138-143) signs in with: the
string literals written in the source, independent of the store
configuration. -/
def initSystemCredential (_s : SurrealStore) : Root :=
  { username := "root", password := "root" }

/-- init_system (lib.rs:132-150): like init (including db filled from
self.namespace), after signing in with initSystemCredential. -/
def init_system (s : SurrealStore) : SurrealConnection :=
  { ns := s.ns, db := s.ns }

/-- Record access payload (surrealdb::opt::auth::Record) as filled by signin
(lib.rs:313-318); the source fills the database field from self.namespace. -/
structure RecordAccess where
  ns : String
  db : String
  access : String
  params : Credentials
  deriving DecidableEq, Repr

/-- The access payload signin builds (lib.rs:313-318). -/
def signinRecord (c : SurrealConnection) (creds : Credentials) : RecordAccess :=
  { ns := c.ns, db := c.ns, access := "sc__editor", params := creds }

/-- The error mapping in signin (lib.rs:320-324). -/
def mapSigninError (e : SurrealError) : AuthenticationError :=
  match e with
  | .apiQuery _ => .badCredentials
  | .dbInvalidAuth => .badCredentials
  | e => .other e

/-- signin (lib.rs:307-327): submit the record access to the store (the
driver call is modelled as a function from the access payload to the
driver's response), map errors, and return the bearer token
(into_insecure_token). -/
def signin (c : SurrealConnection) (creds : Credentials)
    (store : RecordAccess → Except SurrealError String) :
    Except AuthenticationError String :=
  match store (signinRecord c creds) with
  | .ok tok => .ok tok
  | .error e => .error (mapSigninError e)

@[simp]
theorem lookupA_nil {α β : Type} [DecidableEq α] (k : α) :
    lookupA ([] : List (α × β)) k = none := rfl

@[simp]
theorem lookupA_cons {α β : Type} [DecidableEq α] (k : α) (v : β) (l : List (α × β)) (k' : α) :
    lookupA ((k, v) :: l) k' = if k' = k then some v else lookupA l k' := rfl

theorem lookupA_removeA_ne {α β : Type} [DecidableEq α] (l : List (α × β)) (k k' : α)
    (h : k' ≠ k) : lookupA (removeA l k) k' = lookupA l k' := by
  induction l with
  | nil => rfl
  | cons p rest ih =>
    obtain ⟨a, b⟩ := p
    by_cases hak : a = k
    · subst hak
      simp [removeA, ih, h]
    · simp [removeA, hak, ih]

@[simp]
theorem lookupA_upsertA {α β : Type} [DecidableEq α] (l : List (α × β)) (k : α) (v : β)
    (k' : α) : lookupA (upsertA l k v) k' = if k' = k then some v else lookupA l k' := by
  by_cases h : k' = k
  · simp [upsertA, h]
  · simp [upsertA, h, lookupA_removeA_ne l k k' h]

/-- Evaluation of draft on any state: one submission, after which the draft
row holds the payload, the meta row is bumped with the draft link set, and
the returned item is the merged view of the updated meta row. -/
theorem draft_eval (now : Timestamp) (st : DB) (doc id : String) (v : Value) :
    draft now st doc id v =
      .ok
        ( mergedOf
            { st with
                draftTab := upsertA st.draftTab ⟨doc ++ "_draft", id⟩ ⟨v⟩
                metaTab := upsertA st.metaTab ⟨doc ++ "_meta", id⟩
                  (bumpMeta now (lookupA st.metaTab ⟨doc ++ "_meta", id⟩)
                    (some ⟨doc ++ "_draft", id⟩)) }
            ⟨doc ++ "_meta", id⟩
            (bumpMeta now (lookupA st.metaTab ⟨doc ++ "_meta", id⟩)
              (some ⟨doc ++ "_draft", id⟩))
        , { st with
              draftTab := upsertA st.draftTab ⟨doc ++ "_draft", id⟩ ⟨v⟩
              metaTab := upsertA st.metaTab ⟨doc ++ "_meta", id⟩
                (bumpMeta now (lookupA st.metaTab ⟨doc ++ "_meta", id⟩)
                  (some ⟨doc ++ "_draft", id⟩)) } ) := by
  simp [draft, runQuery, runStmts, draftQuery, step, takeOpt]

/-- Evaluation of get_by_id on any state: always Ok, the optional merged
view of the meta row. -/
theorem get_by_id_eval (st : DB) (doc id : String) :
    get_by_id st doc id =
      .ok ((lookupA st.metaTab ⟨doc ++ "_meta", id⟩).map
        (mergedOf st ⟨doc ++ "_meta", id⟩)) := by
  cases h : lookupA st.metaTab ⟨doc ++ "_meta", id⟩ with
  | none => simp [get_by_id, runQuery, runStmts, getByIdQuery, step, takeOpt, h]
  | some row => simp [get_by_id, runQuery, runStmts, getByIdQuery, step, takeOpt, h]

/-- Evaluation of get_all on any state: always Ok, the merged view of every
meta row of the document type. -/
theorem get_all_eval (st : DB) (doc : String) :
    get_all st doc =
      .ok ((st.metaTab.filter (fun p => p.1.tb == doc ++ "_meta")).map
        (fun p => mergedOf st p.1 p.2)) := rfl

/-- C1: the mutating operations never leave a partial multi-record update
durably observable.  draft sends its five statements in exactly one atomic
submission, so the only durable states are the pre-state and the post-state,
and in the post-state both the draft row (payload written) and the meta row
(draft link set, modified_at bumped) are updated together; delete_draft and
delete send no submission at all, so they leave only the pre-state durable. -/
theorem mutating_ops_single_atomic_submission :
    ∀ (now : Timestamp) (st : DB) (doc id : String) (v : Value),
      durableStates now st (draftSubmissions doc id v) =
        [st, (runQuery now st (draftQuery doc id v)).1] ∧
      lookupA (runQuery now st (draftQuery doc id v)).1.draftTab ⟨doc ++ "_draft", id⟩ =
        some ⟨v⟩ ∧
      (∃ m : MetaRow,
        lookupA (runQuery now st (draftQuery doc id v)).1.metaTab ⟨doc ++ "_meta", id⟩ =
          some m ∧
        m.draft = some ⟨doc ++ "_draft", id⟩ ∧ m.modified_at = now) ∧
      durableStates now st (deleteDraftSubmissions doc id) = [st] ∧
      durableStates now st (deleteSubmissions doc id) = [st] := by
  intro now st doc id v
  refine ⟨?_, ?_,
    ⟨bumpMeta now (lookupA st.metaTab ⟨doc ++ "_meta", id⟩) (some ⟨doc ++ "_draft", id⟩),
      ?_, ?_, ?_⟩, rfl, rfl⟩
  · simp [durableStates, draftSubmissions, List.scanl]
  · simp [runQuery, runStmts, step, draftQuery]
  · simp [runQuery, runStmts, step, draftQuery]
  · cases h : lookupA st.metaTab ⟨doc ++ "_meta", id⟩ <;> simp [bumpMeta, h]
  · cases h : lookupA st.metaTab ⟨doc ++ "_meta", id⟩ <;> simp [bumpMeta, h]

/-- C2: the claim says delete_draft removes the draft record, removes the
meta record when no published reference remains, and returns the merged
view.  The code builds the DELETE statements but never awaits the query, so
nothing is submitted, and the body ends in Ok(todo!()), a panic: evaluated
on a state holding a draft-only item, delete_draft panics and sends zero
submissions. -/
theorem delete_draft_unimplemented :
    delete_draft
      { draftTab := [(⟨"hello_draft", "x"⟩, ⟨Value.str "p"⟩)]
      , metaTab := [(⟨"hello_meta", "x"⟩, ⟨0, 0, some ⟨"hello_draft", "x"⟩, none⟩)]
      , pubTab := [] } "hello" "x" = .error "panic: not yet implemented" ∧
    deleteDraftSubmissions "hello" "x" = [] :=
  ⟨rfl, rfl⟩

/-- C6: two successive draft calls with the same id both succeed (UPSERT
semantics, no duplicate-key or already-exists error), and afterwards
get_by_id returns an item whose inner is the second payload. -/
theorem draft_idempotent_overwrite :
    ∀ (st : DB) (doc id : String) (p1 p2 : Value) (n1 n2 : Timestamp),
      ∃ r1 : Item × DB, draft n1 st doc id p1 = .ok r1 ∧
        ∃ r2 : Item × DB, draft n2 r1.2 doc id p2 = .ok r2 ∧
          ∃ it : Item, get_by_id r2.2 doc id = .ok (some it) ∧ it.inner = p2 := by
  intro st doc id p1 p2 n1 n2
  refine ⟨_, draft_eval n1 st doc id p1, _, draft_eval n2 _ doc id p2, ?_⟩
  rw [get_by_id_eval]
  simp [mergedOf, bumpMeta, draftInner]

/-- C3: the merged view's inner is the draft record's payload exactly when
the meta row's draft link is set and otherwise the published record's
payload, and published_at comes only from the published record, whether or
not a draft exists; draft, get_by_id and get_all all produce items through
this one projection. -/
theorem merged_view_precedence :
    ∀ (st : DB) (doc id : String) (row : MetaRow),
      (∀ d : Thing, row.draft = some d → ∀ dv : Value,
        lookupA st.draftTab d = some ⟨dv⟩ →
        (mergedOf st ⟨doc ++ "_meta", id⟩ row).inner = dv) ∧
      (row.draft = none → ∀ (p : Thing) (pr : PubRow), row.published = some p →
        lookupA st.pubTab p = some pr →
        (mergedOf st ⟨doc ++ "_meta", id⟩ row).inner = pr.inner) ∧
      (mergedOf st ⟨doc ++ "_meta", id⟩ row).published_at = pubPublishedAt st row.published ∧
      get_by_id st doc id =
        .ok ((lookupA st.metaTab ⟨doc ++ "_meta", id⟩).map (mergedOf st ⟨doc ++ "_meta", id⟩)) ∧
      get_all st doc =
        .ok ((st.metaTab.filter (fun p => p.1.tb == doc ++ "_meta")).map
          (fun p => mergedOf st p.1 p.2)) ∧
      (∀ (now : Timestamp) (v : Value) (it : Item) (st1 : DB),
        draft now st doc id v = .ok (it, st1) →
        ∃ mrow : MetaRow, lookupA st1.metaTab ⟨doc ++ "_meta", id⟩ = some mrow ∧
          it = mergedOf st1 ⟨doc ++ "_meta", id⟩ mrow) := by
  intro st doc id row
  refine ⟨?_, ?_, rfl, get_by_id_eval st doc id, get_all_eval st doc, ?_⟩
  · intro d hd dv hdv
    simp [mergedOf, hd, draftInner, hdv]
  · intro h0 p pr hp hpr
    simp [mergedOf, h0, pubInner, hp, hpr]
  · intro now v it st1 h
    rw [draft_eval] at h
    obtain ⟨h1, h2⟩ : _ ∧ _ := by simpa using h
    subst h2
    exact ⟨_, by simp, h1.symm⟩

/-- C3 witness: in a concrete state where both a draft row and a published
row exist, the merged inner is the draft payload. -/
theorem merged_view_precedence_witness :
    (mergedOf
      { draftTab := [(⟨"hello_draft", "x"⟩, ⟨Value.str "d"⟩)]
      , metaTab := []
      , pubTab := [(⟨"hello", "x"⟩, ⟨some 5, Value.str "pub"⟩)] }
      ⟨"hello_meta", "x"⟩
      ⟨1, 2, some ⟨"hello_draft", "x"⟩, some ⟨"hello", "x"⟩⟩).inner = Value.str "d" :=
  (merged_view_precedence
    { draftTab := [(⟨"hello_draft", "x"⟩, ⟨Value.str "d"⟩)]
    , metaTab := []
    , pubTab := [(⟨"hello", "x"⟩, ⟨some 5, Value.str "pub"⟩)] }
    "hello" "x"
    ⟨1, 2, some ⟨"hello_draft", "x"⟩, some ⟨"hello", "x"⟩⟩).1
    ⟨"hello_draft", "x"⟩ rfl (Value.str "d") rfl

/-- C4: get_by_id returns Ok in every state, with None exactly when no meta
record exists; when a meta record exists it returns Some of the merged view,
whatever the draft and published references hold (including both absent). -/
theorem get_by_id_none_iff_no_meta :
    ∀ (st : DB) (doc id : String),
      get_by_id st doc id =
        .ok ((lookupA st.metaTab ⟨doc ++ "_meta", id⟩).map (mergedOf st ⟨doc ++ "_meta", id⟩)) ∧
      (get_by_id st doc id = .ok none ↔ lookupA st.metaTab ⟨doc ++ "_meta", id⟩ = none) := by
  intro st doc id
  refine ⟨get_by_id_eval st doc id, ?_⟩
  rw [get_by_id_eval]
  cases h : lookupA st.metaTab ⟨doc ++ "_meta", id⟩ <;> simp

/-- C4 witness: on the empty state get_by_id yields Ok None. -/
theorem get_by_id_none_iff_no_meta_witness :
    get_by_id ⟨[], [], []⟩ "hello" "x" = .ok none :=
  ((get_by_id_none_iff_no_meta ⟨[], [], []⟩ "hello" "x").2).mpr rfl

/-- C5: the claim says put upserts only the published record keyed by the
item's id, leaves the draft reference and the draft record unchanged, and
returns the stored item as confirmed by the store.  The frame part holds:
the draft and meta tables are untouched and the published table changes
only at the item's key.  The confirmation part fails on the code: the
SCHEMAFULL published table stores only published_at and inner, so the
echoed record lacks the required created_at and modified_at fields,
deserialization into SurrealItem fails, and put surfaces that error
instead of the stored item — on every input, as the concrete evaluation
shows. -/
theorem put_confirmation_fails :
    ∀ (st : DB) (doc : String) (item : Item),
      (put st doc item).2.draftTab = st.draftTab ∧
      (put st doc item).2.metaTab = st.metaTab ∧
      (put st doc item).2.pubTab =
        upsertA st.pubTab ⟨doc, item.id⟩ ⟨item.published_at, item.inner⟩ ∧
      (put st doc item).1 = .error "missing field created_at" ∧
      put ⟨[], [], []⟩ "hello" ⟨"x", 1, 2, some 3, Value.str "p"⟩ =
        (.error "missing field created_at",
          ⟨[], [], [(⟨"hello", "x"⟩, ⟨some 3, Value.str "p"⟩)]⟩) := by
  intro st doc item
  refine ⟨?_, ?_, ?_, ?_, rfl⟩ <;>
    simp [put, pubRowRaw, deserializeSurrealItem]

/-- C7: the claim says every document-type identifier is validated against a
restricted charset before being embedded into statement text, with unsafe
identifiers rejected before any statement is built.  The code performs no
validation: the example identifier "mcdonalds sprite" (containing a space)
fails the restricted charset, yet init_doc builds all ten DDL statements
with the identifier interpolated verbatim, for every identifier. -/
theorem init_doc_embeds_unvalidated_identifier :
    safeIdent helloIdentifier = false ∧
    (initDocStatements helloIdentifier)[0]? =
      some "DEFINE TABLE OVERWRITE mcdonalds sprite SCHEMAFULL PERMISSIONS FOR select WHERE true FOR create, update, delete WHERE $auth.id IS NOT NONE" ∧
    (∀ ident : String, (initDocStatements ident).length = 10) :=
  ⟨by decide, rfl, fun _ => rfl⟩

/-- C8: the claim says signin is scoped to the configured namespace and the
configured database.  The code fills the access payload's database field
from self.namespace (and init also stores the namespace into the
connection's db field), so for a store configured with namespace scalar_ns
and database scalar_db the sign-in targets database scalar_ns; the error
mapping and token passthrough parts of the claim do hold. -/
theorem signin_database_is_namespace :
    (signinRecord (init ⟨"mem", "scalar_ns", "scalar_db"⟩) ⟨"creds"⟩).db = "scalar_ns" ∧
    ("scalar_ns" : String) ≠ "scalar_db" ∧
    (signinRecord (init ⟨"mem", "scalar_ns", "scalar_db"⟩) ⟨"creds"⟩).access = "sc__editor" ∧
    mapSigninError (.apiQuery "q") = .badCredentials ∧
    mapSigninError .dbInvalidAuth = .badCredentials ∧
    mapSigninError (.otherErr "boom") = .other (.otherErr "boom") ∧
    (∀ (c : SurrealConnection) (creds : Credentials) (tok : String),
      signin c creds (fun _ => .ok tok) = .ok tok) :=
  ⟨rfl, by decide, rfl, rfl, rfl, rfl, fun _ _ _ => rfl⟩

/-- C9: the claim says the bootstrap credential used by init_system comes
from injected configuration or secret storage, so that different supplied
credentials yield different sign-ins.  The code hardcodes Root with username
"root" and password "root": the credential is the same literal constant for
every store configuration. -/
theorem init_system_credential_hardcoded :
    initSystemCredential ⟨"memA", "nsA", "dbA"⟩ = ⟨"root", "root"⟩ ∧
    initSystemCredential ⟨"memB", "nsB", "dbB"⟩ = ⟨"root", "root"⟩ ∧
    (∀ s1 s2 : SurrealStore, initSystemCredential s1 = initSystemCredential s2) :=
  ⟨rfl, rfl, fun _ _ => rfl⟩

/-- C10: the id of every item produced by draft, get_by_id and get_all is
the bare record-id string: thing_to_string strips the table-name part of the
store's record identifier, so the caller-supplied id comes back unchanged. -/
theorem item_id_roundtrip :
    ∀ (st : DB) (doc id : String) (now : Timestamp) (v : Value) (t : Thing) (row : MetaRow),
      thing_to_string t = t.id ∧
      (mergedOf st t row).id = t.id ∧
      (∀ (it : Item) (st1 : DB), draft now st doc id v = .ok (it, st1) → it.id = id) ∧
      (∀ it : Item, get_by_id st doc id = .ok (some it) → it.id = id) ∧
      (∀ l : List Item, get_all st doc = .ok l → ∀ it ∈ l,
        ∃ p ∈ st.metaTab, it = mergedOf st p.1 p.2 ∧ it.id = p.1.id) := by
  intro st doc id now v t row
  refine ⟨rfl, rfl, ?_, ?_, ?_⟩
  · intro it st1 h
    rw [draft_eval] at h
    obtain ⟨h1, _⟩ : _ ∧ _ := by simpa using h
    rw [← h1]
    rfl
  · intro it h
    rw [get_by_id_eval] at h
    cases hm : lookupA st.metaTab ⟨doc ++ "_meta", id⟩ with
    | none => rw [hm] at h; simp at h
    | some r =>
      rw [hm] at h
      obtain h1 : _ = it := by simpa using h
      rw [← h1]
      rfl
  · intro l h it hmem
    rw [get_all_eval] at h
    obtain hl : _ = l := by simpa using h
    subst hl
    obtain ⟨p, hp, hit⟩ := List.mem_map.mp hmem
    exact ⟨p, (List.mem_filter.mp hp).1, hit.symm, by rw [← hit]; rfl⟩

/-- C10 witness: a concrete draft call returns the caller-supplied id
unchanged. -/
theorem item_id_roundtrip_witness :
    ({ id := "x", created_at := 0, modified_at := 0, published_at := none,
       inner := Value.str "p" } : Item).id = "x" :=
  (item_id_roundtrip ⟨[], [], []⟩ "hello" "x" 0 (Value.str "p") ⟨"a", "b"⟩
      ⟨0, 0, none, none⟩).2.2.1
    { id := "x", created_at := 0, modified_at := 0, published_at := none,
      inner := Value.str "p" }
    { draftTab := [(⟨"hello_draft", "x"⟩, ⟨Value.str "p"⟩)]
    , metaTab := [(⟨"hello_meta", "x"⟩, ⟨0, 0, some ⟨"hello_draft", "x"⟩, none⟩)]
    , pubTab := [] }
    (by rfl)

end ScalarSurreal
